import Mathlib

/-!
Verification development for the pastel space shooter
(src/Assignment_20/space_shooter.py).

The simulation core is shallowly embedded: pygame float coordinates are
modelled as real numbers, pygame `Rect`s as integer rectangles (pygame
rects store C ints; assigning a float truncates toward zero, modelled by
`pyInt`), sprite groups as lists in insertion order, and the global
`random` generator as an explicit environment (`Env`) of drawn values.
Rendering-only data (surfaces, images, the cosmetic tilt) is not part of
the simulation state and is omitted.
-/

set_option maxHeartbeats 1000000

namespace SpaceShooter

/-- Truncation toward zero, as applied by pygame when a float coordinate is
assigned to an integer `Rect` field (C `int` cast semantics). -/
noncomputable def pyInt (x : ℝ) : ℤ :=
  if x < 0 then ⌈x⌉ else ⌊x⌋

/-- Utility `clamp(v, a, b)` from the source: `max(a, min(b, v))`. -/
noncomputable def clamp (v a b : ℝ) : ℝ :=
  max a (min b v)

/-- A pygame rectangle: integer left/top corner and size. -/
structure PyRect where
  left : ℤ
  top : ℤ
  width : ℤ
  height : ℤ
deriving DecidableEq

/-- Bottom edge of a rect (`rect.bottom`). -/
def PyRect.bottom (r : PyRect) : ℤ :=
  r.top + r.height

/-- Center of a rect (`rect.center`), with pygame integer halving. -/
def PyRect.center (r : PyRect) : ℤ × ℤ :=
  (r.left + r.width / 2, r.top + r.height / 2)

/-- Midpoint of the top edge (`rect.midtop`). -/
def PyRect.midtop (r : PyRect) : ℤ × ℤ :=
  (r.left + r.width / 2, r.top)

/-- Rect update `rect.center = c`: keeps the size, moves the corner. -/
def PyRect.setCenter (r : PyRect) (c : ℤ × ℤ) : PyRect :=
  ⟨c.1 - r.width / 2, c.2 - r.height / 2, r.width, r.height⟩

/-- Pygame `Rect.colliderect`: axis-aligned bounding-box intersection with
strict inequalities, in pygame's order of the four comparisons. -/
def colliderect (a b : PyRect) : Bool :=
  decide (a.left < b.left + b.width) && decide (a.top < b.top + b.height) &&
  decide (b.left < a.left + a.width) && decide (b.top < a.top + a.height)

/-- Input snapshot for one frame. Each flag is the disjunction of the two
keys the source checks (arrows / WASD, space / z). -/
structure Input where
  left : Bool
  right : Bool
  up : Bool
  down : Bool
  fire : Bool

/-- The player sprite: position, velocity, fire cooldown, score, lives and
the collision rect, exactly the mutable state of `Player` in the source. -/
structure Player where
  pos : ℝ × ℝ
  vel : ℝ × ℝ
  fireTimer : ℝ
  score : ℤ
  lives : ℤ
  rect : PyRect

/-- A bullet: position, velocity and collision rect. -/
structure Bullet where
  pos : ℝ × ℝ
  vel : ℝ × ℝ
  rect : PyRect

/-- An enemy: position, fall speed, oscillation phase and amplitude, and
the collision rect. -/
structure Enemy where
  pos : ℝ × ℝ
  speed : ℝ
  phase : ℝ
  oscAmp : ℝ
  rect : PyRect

/-- An explosion particle: position, velocity, lifetime, age and the fade
alpha last written to its image (Surfaces start fully opaque, alpha 255).
The particle rect is rendering-only and omitted. -/
structure Particle where
  pos : ℝ × ℝ
  vel : ℝ × ℝ
  lifetime : ℝ
  age : ℝ
  alpha : ℤ

/-- A starfield star: position, size, parallax layer and base x. -/
structure Star where
  pos : ℝ × ℝ
  size : ℕ
  layer : ℕ
  baseX : ℝ

/-- `Player.update(dt, keys)`: movement vector from held keys, normalized
when nonzero, scaled by `PLAYER_SPEED = 340`, integrated, clamped to the
screen (`WIDTH, HEIGHT = 900, 600`), rect recentered, fire cooldown
decremented with floor 0. The tilt computation only changes the image. -/
noncomputable def Player.update (p : Player) (dt : ℝ) (keys : Input) : Player :=
  let mx : ℝ := (if keys.left then -1 else 0) + (if keys.right then 1 else 0)
  let my : ℝ := (if keys.up then -1 else 0) + (if keys.down then 1 else 0)
  let len2 : ℝ := mx * mx + my * my
  let nx : ℝ := if 0 < len2 then mx / Real.sqrt len2 else mx
  let ny : ℝ := if 0 < len2 then my / Real.sqrt len2 else my
  let vel : ℝ × ℝ := (nx * 340, ny * 340)
  let x : ℝ := clamp (p.pos.1 + vel.1 * dt) ((p.rect.width : ℝ) / 2) (900 - (p.rect.width : ℝ) / 2)
  let y : ℝ := clamp (p.pos.2 + vel.2 * dt) ((p.rect.height : ℝ) / 2) (600 - (p.rect.height : ℝ) / 2)
  { p with
    pos := (x, y)
    vel := vel
    rect := p.rect.setCenter (pyInt x, pyInt y)
    fireTimer := max 0 (p.fireTimer - dt) }

/-- `Bullet(pos)`: fixed velocity `(0, -BULLET_SPEED)` with
`BULLET_SPEED = 700`, rect of size `BULLET_SIZE = (6, 14)` centered at the
spawn position. -/
noncomputable def mkBullet (pos : ℝ × ℝ) : Bullet :=
  { pos := pos
    vel := (0, -700)
    rect := PyRect.setCenter ⟨0, 0, 6, 14⟩ (pyInt pos.1, pyInt pos.2) }

/-- `Bullet.update(dt)`: integrate the position, recenter the rect, and
kill the bullet when `rect.bottom < -20`. `none` models `kill()`. -/
noncomputable def Bullet.update (b : Bullet) (dt : ℝ) : Option Bullet :=
  let pos : ℝ × ℝ := (b.pos.1 + b.vel.1 * dt, b.pos.2 + b.vel.2 * dt)
  let rect := b.rect.setCenter (pyInt pos.1, pyInt pos.2)
  if rect.bottom < -20 then none
  else some { pos := pos, vel := b.vel, rect := rect }

/-- `Enemy.update(dt)`: advance the phase by `dt * 4.0`, perturb x by
`sin(phase) * osc_amp * dt`, advance y by `speed * dt`, recenter the rect,
and kill the enemy when `rect.top > HEIGHT + 40 = 640`. -/
noncomputable def Enemy.update (e : Enemy) (dt : ℝ) : Option Enemy :=
  let phase := e.phase + dt * 4
  let wobble := Real.sin phase * e.oscAmp
  let pos : ℝ × ℝ := (e.pos.1 + wobble * dt, e.pos.2 + e.speed * dt)
  let rect := e.rect.setCenter (pyInt pos.1, pyInt pos.2)
  if rect.top > 600 + 40 then none
  else some { e with pos := pos, phase := phase, rect := rect }

/-- Fade alpha written by `Particle.update`:
`int(255 * (1.0 - age / lifetime))`. -/
noncomputable def fadeAlpha (age lifetime : ℝ) : ℤ :=
  pyInt (255 * (1 - age / lifetime))

/-- `Particle.update(dt)`: age the particle, kill it once
`age >= lifetime`, otherwise integrate the position with the old velocity,
apply the `0.98` drag, and write the fade alpha. -/
noncomputable def Particle.update (p : Particle) (dt : ℝ) : Option Particle :=
  let age := p.age + dt
  if p.lifetime ≤ age then none
  else some
    { pos := (p.pos.1 + p.vel.1 * dt, p.pos.2 + p.vel.2 * dt)
      vel := (p.vel.1 * 0.98, p.vel.2 * 0.98)
      lifetime := p.lifetime
      age := age
      alpha := fadeAlpha age p.lifetime }

/-- `Star.update(dt, speed_factor)`: drift downward at a layer-scaled rate
and wrap to the top with a freshly drawn x (`wrapX`) past `HEIGHT + 10`. -/
noncomputable def Star.update (st : Star) (dt speedFactor wrapX : ℝ) : Star :=
  let y := st.pos.2 + (20 + (st.layer : ℝ) * 40) * dt * speedFactor
  if y > 600 + 10 then { st with pos := (wrapX, -10) }
  else { st with pos := (st.pos.1, y) }

/-- Values drawn from the global `random` generator during one tick.
`enemyX/enemyY/enemySpeed/enemyPhase/enemyAmp` are the draws
`spawn_enemy` would make; `pvel i j` and `plife i j` are the velocity
(direction and speed collapsed into the drawn vector) and lifetime of the
`j`-th particle of the `i`-th explosion burst of the tick's collision
pass; `starX i` is the wrap x the `i`-th star would draw. -/
structure Env where
  enemyX : ℝ
  enemyY : ℝ
  enemySpeed : ℝ
  enemyPhase : ℝ
  enemyAmp : ℝ
  pvel : ℕ → ℕ → ℝ × ℝ
  plife : ℕ → ℕ → ℝ
  starX : ℕ → ℝ

/-- `Particle(pos)` with its random draws: spawned at the explosion point,
age 0, image initially fully opaque. -/
noncomputable def mkParticle (c : ℤ × ℤ) (vel : ℝ × ℝ) (lifetime : ℝ) : Particle :=
  { pos := ((c.1 : ℝ), (c.2 : ℝ))
    vel := vel
    lifetime := lifetime
    age := 0
    alpha := 255 }

/-- `spawn_explosion(pos, group)`: `PARTICLE_COUNT = 18` particles at the
given point; `k` numbers this burst within the tick's collision pass. -/
noncomputable def spawnExplosion (env : Env) (k : ℕ) (c : ℤ × ℤ) : List Particle :=
  (List.range 18).map fun j => mkParticle c (env.pvel k j) (env.plife k j)

/-- One explosion burst per listed center, numbering bursts from `k`. -/
noncomputable def burstsFrom (env : Env) : ℕ → List (ℤ × ℤ) → List Particle
  | _, [] => []
  | k, c :: cs => spawnExplosion env k c ++ burstsFrom env (k + 1) cs

/-- `spawn_enemy(group)`: one enemy from the drawn position, speed, phase
and amplitude, its rect (`ENEMY_SIZE = (42, 30)`) centered at the spawn
position. -/
noncomputable def spawnEnemy (env : Env) : Enemy :=
  { pos := (env.enemyX, env.enemyY)
    speed := env.enemySpeed
    phase := env.enemyPhase
    oscAmp := env.enemyAmp
    rect := PyRect.setCenter ⟨0, 0, 42, 30⟩ (pyInt env.enemyX, pyInt env.enemyY) }

/-- Current enemy spawn interval:
`max(0.35, ENEMY_SPAWN_INTERVAL - min(score / 50.0, 0.7))` with
`ENEMY_SPAWN_INTERVAL = 1.0`. -/
noncomputable def spawnInterval (score : ℤ) : ℝ :=
  max 0.35 (1 - min ((score : ℝ) / 50) 0.7)

/-- Spawn step of the frame loop: advance the spawn timer by `dt` and, if
it has reached the current interval, reset it to 0 and add one enemy. -/
noncomputable def spawnStep (env : Env) (timer : ℝ) (score : ℤ) (dt : ℝ)
    (enemies : List Enemy) : ℝ × List Enemy :=
  let t := timer + dt
  if t ≥ spawnInterval score then (0, enemies ++ [spawnEnemy env])
  else (t, enemies)

/-- Shooting step: when the fire key is held and the cooldown has run out,
two bullets spawn at `rect.midtop ∓ (10, 0)` and the cooldown resets to
`PLAYER_FIRE_COOLDOWN = 0.18`. -/
noncomputable def shootStep (p : Player) (keys : Input) (bullets : List Bullet) :
    Player × List Bullet :=
  if keys.fire = true ∧ p.fireTimer ≤ 0 then
    ({ p with fireTimer := 0.18 },
      bullets ++
        [mkBullet (((p.rect.midtop.1 - 10 : ℤ) : ℝ), ((p.rect.midtop.2 : ℤ) : ℝ)),
         mkBullet (((p.rect.midtop.1 + 10 : ℤ) : ℝ), ((p.rect.midtop.2 : ℤ) : ℝ))])
  else (p, bullets)

/-- Starfield speed factor step: snap to 0.75 / 1.25 while a horizontal
key is held, otherwise ease toward 1 at rate `min(1, dt * 3)`. -/
noncomputable def speedFactorStep (sf : ℝ) (dt : ℝ) (keys : Input) : ℝ :=
  if keys.left then 0.75
  else if keys.right then 1.25
  else sf + (1 - sf) * min 1 (dt * 3)

/-- The whole mutable session state of `main`'s frame loop. -/
structure SimState where
  player : Player
  bullets : List Bullet
  enemies : List Enemy
  particles : List Particle
  stars : List Star
  spawnTimer : ℝ
  speedFactor : ℝ
  paused : Bool
  running : Bool

/-- `pygame.sprite.groupcollide(enemy_group, bullet_group, True, True)`:
iterate the enemies in group order; for each, the bullets currently
overlapping it are all killed and the enemy is killed and recorded as a
hit. Returns (hit enemies, surviving enemies, surviving bullets). -/
def bulletPass : List Enemy → List Bullet → List Enemy × List Enemy × List Bullet
  | [], bs => ([], [], bs)
  | e :: es, bs =>
    let colliding := bs.filter fun b => colliderect e.rect b.rect
    if colliding.isEmpty then
      let r := bulletPass es bs
      (r.1, e :: r.2.1, r.2.2)
    else
      let r := bulletPass es (bs.filter fun b => !colliderect e.rect b.rect)
      (e :: r.1, r.2.1, r.2.2)

/-- Enemies destroyed by the bullet pass, in group order. -/
def hitsOf (s : SimState) : List Enemy :=
  (bulletPass s.enemies s.bullets).1

/-- Enemies left after the bullet pass. -/
def enemiesAfterBullets (s : SimState) : List Enemy :=
  (bulletPass s.enemies s.bullets).2.1

/-- Bullets left after the bullet pass. -/
def bulletsAfterPass (s : SimState) : List Bullet :=
  (bulletPass s.enemies s.bullets).2.2

/-- Result of `pygame.sprite.spritecollide(player, enemy_group, True)` on
the enemies left by the bullet pass: the enemies whose rect overlaps the
player's rect (all of them are killed). -/
def playerHitList (s : SimState) : List Enemy :=
  (enemiesAfterBullets s).filter fun e => colliderect s.player.rect e.rect

/-- Enemies surviving both collision checks of the pass. -/
def enemySurvivors (s : SimState) : List Enemy :=
  (enemiesAfterBullets s).filter fun e => !colliderect s.player.rect e.rect

/-- At least one enemy overlaps the player in this pass. -/
def playerHit (s : SimState) : Bool :=
  !(playerHitList s).isEmpty

/-- Collision resolution pass of the frame loop (source lines 346-366):
bullet-enemy hits award 10 points and an explosion each; then every enemy
overlapping the player is killed and, if there was at least one, lives
drop by 1 and an explosion bursts at the player; if lives then are 0 or
less, a soft reset fires: an extra flash at the player, lives back to 3,
score to 0, explosions for all still-live enemies, and the enemy and
bullet groups are emptied (particles are untouched). -/
noncomputable def resolveCollisions (env : Env) (s : SimState) : SimState :=
  let hits := hitsOf s
  let score1 := s.player.score + 10 * hits.length
  let parts1 := s.particles ++ burstsFrom env 0 (hits.map fun e => e.rect.center)
  let enemies2 := enemySurvivors s
  let bullets2 := bulletsAfterPass s
  if (playerHitList s).isEmpty then
    { s with
      player := { s.player with score := score1 }
      enemies := enemies2
      bullets := bullets2
      particles := parts1 }
  else
    let lives1 := s.player.lives - 1
    let parts2 := parts1 ++ spawnExplosion env hits.length s.player.rect.center
    if lives1 ≤ 0 then
      { s with
        player := { s.player with lives := 3, score := 0 }
        enemies := []
        bullets := []
        particles := parts2 ++ spawnExplosion env (hits.length + 1) s.player.rect.center
          ++ burstsFrom env (hits.length + 2) (enemies2.map fun e => e.rect.center) }
    else
      { s with
        player := { s.player with lives := lives1, score := score1 }
        enemies := enemies2
        bullets := bullets2
        particles := parts2 }

/-- Simulation part of one unpaused frame before the collision pass
(source lines 309-344): speed factor, spawn step, player update, shooting,
bullet/enemy/particle updates (`kill()` removes a sprite from its group),
then the starfield. -/
noncomputable def preCollision (env : Env) (s : SimState) (dt : ℝ) (keys : Input) :
    SimState :=
  let sf := speedFactorStep s.speedFactor dt keys
  let spawned := spawnStep env s.spawnTimer s.player.score dt s.enemies
  let p1 := s.player.update dt keys
  let shot := shootStep p1 keys s.bullets
  let bullets2 := shot.2.filterMap fun b => b.update dt
  let enemies2 := spawned.2.filterMap fun e => e.update dt
  let particles2 := s.particles.filterMap fun p => p.update dt
  let stars2 := s.stars.mapIdx fun i st => st.update dt sf (env.starX i)
  { s with
    player := shot.1
    bullets := bullets2
    enemies := enemies2
    particles := particles2
    stars := stars2
    spawnTimer := spawned.1
    speedFactor := sf }

/-- One iteration of the frame loop after event handling: while paused the
simulation state is untouched (only rendering happens); otherwise the
updates run and the collision pass resolves. The `running` flag is only
written by event handling, never by the simulation body. -/
noncomputable def tick (env : Env) (s : SimState) (dt : ℝ) (keys : Input) : SimState :=
  if s.paused then s else resolveCollisions env (preCollision env s dt keys)

/-- Session-state invariant maintained by the frame loop: lives stays in
{1, 2, 3} and the score is a non-negative multiple of 10. -/
def sessionInv (s : SimState) : Prop :=
  (s.player.lives = 1 ∨ s.player.lives = 2 ∨ s.player.lives = 3) ∧
  0 ≤ s.player.score ∧ 10 ∣ s.player.score

/-- The player as constructed by `Player((WIDTH // 2, HEIGHT - 100))`:
center (450, 500), zero velocity and cooldown, score 0, lives 3, rect of
`PLAYER_SIZE = (48, 36)`. -/
def initPlayer : Player :=
  { pos := (450, 500), vel := (0, 0), fireTimer := 0, score := 0, lives := 3
    rect := ⟨426, 482, 48, 36⟩ }

/-- Session state at the start of `main`, with the drawn starfield. -/
def initState (stars : List Star) : SimState :=
  { player := initPlayer, bullets := [], enemies := [], particles := []
    stars := stars, spawnTimer := 0, speedFactor := 1
    paused := false, running := true }

/-! Concrete sample data used by witnesses and counterexamples. -/

/-- Environment whose random draws are all trivial. -/
def env0 : Env :=
  { enemyX := 0, enemyY := 0, enemySpeed := 0, enemyPhase := 0, enemyAmp := 0
    pvel := fun _ _ => (0, 0), plife := fun _ _ => 1, starX := fun _ => 0 }

/-- Input snapshot with no key held. -/
def inp0 : Input :=
  { left := false, right := false, up := false, down := false, fire := false }

/-- A player resting at the spawn point with one life left. -/
def player1 : Player :=
  { pos := (450, 500), vel := (0, 0), fireTimer := 1, score := 0, lives := 1
    rect := ⟨426, 482, 48, 36⟩ }

/-- An enemy sitting exactly on the player's position. -/
def enemy1 : Enemy :=
  { pos := (450, 500), speed := 90, phase := 0, oscAmp := 12
    rect := ⟨429, 485, 42, 30⟩ }

/-- An enemy near the player's position, offset by (dx, dy) pixels. -/
def enemyNear (dx dy : ℤ) : Enemy :=
  { pos := (450, 500), speed := 90, phase := 0, oscAmp := 12
    rect := ⟨429 + dx, 485 + dy, 42, 30⟩ }

/-- A session state about to lose its last life: one enemy overlaps the
player and the player has 1 life. -/
def state1 : SimState :=
  { player := player1, bullets := [], enemies := [enemy1]
    particles := [], stars := [], spawnTimer := 0, speedFactor := 1
    paused := false, running := true }

/-- A paused session state. -/
def statePaused : SimState :=
  { player := initPlayer, bullets := [], enemies := [enemy1]
    particles := [], stars := [], spawnTimer := 0, speedFactor := 1
    paused := true, running := true }

/-- A collision-pass input state with two enemies overlapping the player
and 3 lives. -/
def stateTwoHits : SimState :=
  { player := { player1 with lives := 3 }, bullets := []
    enemies := [enemyNear 0 0, enemyNear 1 1]
    particles := [], stars := [], spawnTimer := 0, speedFactor := 1
    paused := false, running := true }

/-- A bullet with the standard downward-negative velocity at a given rect
position. -/
def bulletAt (l t : ℤ) : Bullet :=
  { pos := (0, 0), vel := (0, -700), rect := ⟨l, t, 6, 14⟩ }

/-- A collision-pass input state with one enemy overlapped by two bullets
at once, the player far away. -/
def stateTwoBullets : SimState :=
  { player := { player1 with lives := 3, pos := (100, 100), rect := ⟨76, 82, 48, 36⟩ }
    bullets := [bulletAt 447 493, bulletAt 457 493]
    enemies := [enemyNear 0 0]
    particles := [], stars := [], spawnTimer := 0, speedFactor := 1
    paused := false, running := true }

/-- A live bullet whose next update moves its center y to exactly -27:
past the spec's -20 line, yet not killed by the code. -/
def cexBullet : Bullet :=
  { pos := (450, -20), vel := (0, -700), rect := ⟨447, -27, 6, 14⟩ }

/-- A live enemy whose position y = 641 is already past `HEIGHT + 40`. -/
def cexEnemy : Enemy :=
  { pos := (450, 641), speed := 60, phase := 0, oscAmp := 12
    rect := ⟨429, 626, 42, 30⟩ }

/-- A particle aged halfway into a lifetime of 1 by the sample update. -/
def partW : Particle :=
  { pos := (0, 0), vel := (100, 0), lifetime := 1, age := 0, alpha := 255 }

/-- The state of `partW` after `update(0.5)`. -/
noncomputable def partW2 : Particle :=
  { pos := (50, 0), vel := (98, 0), lifetime := 1, age := 1/2, alpha := 127 }

/-- A live bullet at center y = -25, the position named by the spec's
removal scenario. -/
def bulletY25 : Bullet :=
  { pos := (450, -25), vel := (0, -700), rect := ⟨447, -32, 6, 14⟩ }

/-! Helper lemmas. -/

lemma pyInt_intCast (n : ℤ) : pyInt ((n : ℤ) : ℝ) = n := by
  unfold pyInt
  split
  · exact Int.ceil_intCast n
  · exact Int.floor_intCast n

lemma pyInt_le_int (x : ℝ) (n : ℤ) (hx : x < 0) (h : x ≤ (n : ℝ)) : pyInt x ≤ n := by
  unfold pyInt
  rw [if_pos hx]
  exact Int.ceil_le.mpr h

lemma le_clamp (v a b : ℝ) : a ≤ clamp v a b :=
  le_max_left a (min b v)

lemma clamp_le (v a b : ℝ) (h : a ≤ b) : clamp v a b ≤ b :=
  max_le h (min_le_left b v)

lemma Player.update_score (p : Player) (dt : ℝ) (keys : Input) :
    (p.update dt keys).score = p.score := rfl

lemma Player.update_lives (p : Player) (dt : ℝ) (keys : Input) :
    (p.update dt keys).lives = p.lives := rfl

lemma shootStep_score (p : Player) (keys : Input) (bs : List Bullet) :
    (shootStep p keys bs).1.score = p.score := by
  unfold shootStep
  split <;> rfl

lemma shootStep_lives (p : Player) (keys : Input) (bs : List Bullet) :
    (shootStep p keys bs).1.lives = p.lives := by
  unfold shootStep
  split <;> rfl

lemma preCollision_score (env : Env) (s : SimState) (dt : ℝ) (keys : Input) :
    (preCollision env s dt keys).player.score = s.player.score := by
  unfold preCollision
  rw [shootStep_score, Player.update_score]

lemma preCollision_lives (env : Env) (s : SimState) (dt : ℝ) (keys : Input) :
    (preCollision env s dt keys).player.lives = s.player.lives := by
  unfold preCollision
  rw [shootStep_lives, Player.update_lives]

lemma preCollision_running (env : Env) (s : SimState) (dt : ℝ) (keys : Input) :
    (preCollision env s dt keys).running = s.running := rfl

lemma resolveCollisions_running (env : Env) (s : SimState) :
    (resolveCollisions env s).running = s.running := by
  simp only [resolveCollisions]
  split_ifs <;> rfl

lemma resolveCollisions_player_rect (env : Env) (s : SimState) :
    (resolveCollisions env s).player.rect = s.player.rect := by
  simp only [resolveCollisions]
  split_ifs <;> rfl

lemma resolveCollisions_lives_cases (env : Env) (s : SimState) :
    (resolveCollisions env s).player.lives = s.player.lives ∨
    ((resolveCollisions env s).player.lives = s.player.lives - 1 ∧
      ¬s.player.lives - 1 ≤ 0) ∨
    ((resolveCollisions env s).player.lives = 3 ∧ s.player.lives - 1 ≤ 0) := by
  simp only [resolveCollisions]
  split_ifs with h1 h2
  · exact Or.inl rfl
  · exact Or.inr (Or.inr ⟨rfl, h2⟩)
  · exact Or.inr (Or.inl ⟨rfl, h2⟩)

lemma resolveCollisions_enemies_cases (env : Env) (s : SimState) :
    (resolveCollisions env s).enemies = [] ∨
    (resolveCollisions env s).enemies = enemySurvivors s := by
  simp only [resolveCollisions]
  split_ifs
  · exact Or.inr rfl
  · exact Or.inl rfl
  · exact Or.inr rfl

lemma mem_enemySurvivors (s : SimState) (e : Enemy) (h : e ∈ enemySurvivors s) :
    colliderect s.player.rect e.rect = false := by
  have h2 := (List.mem_filter.mp h).2
  simpa using h2

lemma resolveCollisions_score_cases (env : Env) (s : SimState) :
    (resolveCollisions env s).player.score =
      s.player.score + 10 * (hitsOf s).length ∨
    (resolveCollisions env s).player.score = 0 := by
  simp only [resolveCollisions]
  split_ifs
  · exact Or.inl rfl
  · exact Or.inr rfl
  · exact Or.inl rfl

/-! Claim theorems. -/

/-- Claim C1: when the enemy-player pass of an unpaused tick decrements
the lives to 0 (the pre-collision state `u` has 1 life and at least one
enemy overlapping the player), the same tick performs the soft reset:
lives become 3, score becomes 0, the enemy and bullet collections become
empty, the particle collection is only extended (with a burst per
still-live enemy, among others), never cleared, and the running flag is
untouched, so the frame loop does not terminate. -/
theorem tick_soft_reset (env : Env) (s u : SimState) (dt : ℝ) (keys : Input)
    (hp : s.paused = false)
    (hu : preCollision env s dt keys = u)
    (hl : u.player.lives = 1)
    (hhit : playerHit u = true) :
    (tick env s dt keys).player.lives = 3 ∧
    (tick env s dt keys).player.score = 0 ∧
    (tick env s dt keys).enemies = [] ∧
    (tick env s dt keys).bullets = [] ∧
    (tick env s dt keys).particles =
      u.particles
        ++ burstsFrom env 0 ((hitsOf u).map fun e => e.rect.center)
        ++ spawnExplosion env (hitsOf u).length u.player.rect.center
        ++ spawnExplosion env ((hitsOf u).length + 1) u.player.rect.center
        ++ burstsFrom env ((hitsOf u).length + 2)
            ((enemySurvivors u).map fun e => e.rect.center) ∧
    (tick env s dt keys).running = s.running := by
  have hne : (playerHitList u).isEmpty = false := by
    unfold playerHit at hhit
    simpa using hhit
  have ht : tick env s dt keys = resolveCollisions env u := by
    rw [tick, hu, if_neg]
    rw [hp]
    simp
  have hrun : u.running = s.running := by
    rw [← hu]
    exact preCollision_running env s dt keys
  rw [ht]
  simp only [resolveCollisions, hne, Bool.false_eq_true, if_false, hl]
  norm_num
  exact hrun

/-- Witness for claim C1: a concrete unpaused state with one life and one
enemy sitting on the player goes through the soft reset in one tick. -/
theorem tick_soft_reset_witness :
    state1.paused = false ∧ state1.player.lives = 1 ∧ playerHit state1 = true ∧
    (tick env0 state1 0 inp0).player.lives = 3 ∧
    (tick env0 state1 0 inp0).enemies = [] ∧ (tick env0 state1 0 inp0).bullets = [] := by
  have hpre : preCollision env0 state1 0 inp0 = state1 := by
    simp only [preCollision, speedFactorStep, spawnStep, spawnInterval, Player.update,
      shootStep, Bullet.update, Enemy.update, Particle.update, Star.update, clamp,
      spawnEnemy, state1, inp0, env0, player1, enemy1, PyRect.setCenter, PyRect.midtop,
      List.filterMap_nil, List.filterMap_cons, List.mapIdx_nil,
      SimState.mk.injEq, Player.mk.injEq, Enemy.mk.injEq, Prod.mk.injEq, PyRect.mk.injEq]
    norm_num [pyInt, List.filterMap_cons, List.filterMap_nil, Enemy.mk.injEq,
      Prod.mk.injEq, PyRect.mk.injEq]
  have h := tick_soft_reset env0 state1 state1 0 inp0 rfl hpre rfl (by decide)
  exact ⟨rfl, rfl, by decide, h.1, h.2.2.1, h.2.2.2.1⟩

/-- Claim C2, counterexample: the claim says lives drop by 1 per enemy
overlapping the player and that a hit enemy matches at most one bullet.
In the code, two enemies overlapping the player cost one single life
(3 drops to 2, not to 1), and one enemy overlapped by two bullets at once
destroys both bullets, not just the first. -/
theorem collision_multiplicity_cex :
    ((playerHitList stateTwoHits).length = 2 ∧
      stateTwoHits.player.lives = 3 ∧
      (resolveCollisions env0 stateTwoHits).player.lives = 2) ∧
    ((hitsOf stateTwoBullets).length = 1 ∧
      stateTwoBullets.bullets.length = 2 ∧
      stateTwoBullets.bullets.all (fun bl => colliderect (enemyNear 0 0).rect bl.rect)
        = true ∧
      (resolveCollisions env0 stateTwoBullets).bullets.length = 0) := by
  refine ⟨⟨by decide, by decide, ?_⟩, ⟨by decide, by decide, by decide, ?_⟩⟩
  · simp only [resolveCollisions]
    norm_num [playerHitList, enemiesAfterBullets, bulletPass, stateTwoHits, player1,
      enemyNear, colliderect]
  · simp only [resolveCollisions]
    norm_num [playerHitList, enemiesAfterBullets, bulletsAfterPass, bulletPass,
      stateTwoBullets, player1, enemyNear, bulletAt, colliderect]

/-- Claim C2 as amended: in a collision pass with no soft reset (at least
2 lives), the score grows by exactly 10 per enemy destroyed by the bullet
pass (each hit enemy destroying every bullet overlapping it, and a
destroyed bullet matching no further enemy); every enemy overlapping the
player is destroyed; lives drop by exactly 1 for the whole pass when at
least one enemy overlaps the player, with one explosion at the player's
position, and are unchanged otherwise. -/
theorem collision_effects (env : Env) (u : SimState) (hl : 2 ≤ u.player.lives) :
    (resolveCollisions env u).player.score = u.player.score + 10 * (hitsOf u).length ∧
    (resolveCollisions env u).player.lives =
      (if playerHit u = true then u.player.lives - 1 else u.player.lives) ∧
    (resolveCollisions env u).enemies = enemySurvivors u ∧
    (resolveCollisions env u).bullets = bulletsAfterPass u ∧
    (∀ e ∈ (resolveCollisions env u).enemies, colliderect u.player.rect e.rect = false) ∧
    (playerHit u = true →
      (resolveCollisions env u).particles =
        u.particles ++ burstsFrom env 0 ((hitsOf u).map fun e => e.rect.center)
          ++ spawnExplosion env (hitsOf u).length u.player.rect.center) := by
  have hno : ¬u.player.lives - 1 ≤ 0 := by omega
  cases hE : (playerHitList u).isEmpty with
  | true =>
    simp only [resolveCollisions, playerHit, hE, if_true, Bool.not_true,
      Bool.false_eq_true, if_false]
    refine ⟨trivial, trivial, trivial, trivial, ?_, fun h => absurd h (by simp)⟩
    intro e he
    exact mem_enemySurvivors u e he
  | false =>
    simp only [resolveCollisions, playerHit, hE, Bool.false_eq_true, if_false,
      Bool.not_false, if_neg hno, if_true]
    refine ⟨trivial, trivial, trivial, trivial, ?_, fun _ => trivial⟩
    intro e he
    exact mem_enemySurvivors u e he

/-- Witness for the amended claim C2 at the two-enemies state. -/
theorem collision_effects_witness :
    2 ≤ stateTwoHits.player.lives ∧
    (resolveCollisions env0 stateTwoHits).player.lives =
      (if playerHit stateTwoHits = true then stateTwoHits.player.lives - 1
        else stateTwoHits.player.lives) :=
  ⟨by decide, (collision_effects env0 stateTwoHits (by decide)).2.1⟩

/-- Claim C3: the spawn interval is `max(0.35, 1 - min(score / 50, 0.7))`,
monotonically non-increasing in the score, bounded below by 0.35, with
value 1.0 at score 0 and 0.35 at score 100; the spawn step adds an enemy
and resets the timer to 0 exactly when the advanced timer has reached the
current interval, and otherwise only accumulates the timer. -/
theorem spawnInterval_spec :
    (∀ sc : ℤ, 0 ≤ sc → spawnInterval sc = max 0.35 (1 - min ((sc : ℝ) / 50) 0.7)) ∧
    (∀ a b : ℤ, a ≤ b → spawnInterval b ≤ spawnInterval a) ∧
    (∀ sc : ℤ, 0.35 ≤ spawnInterval sc) ∧
    spawnInterval 0 = 1 ∧
    spawnInterval 100 = 0.35 ∧
    (∀ (env : Env) (timer : ℝ) (sc : ℤ) (dt : ℝ) (enemies : List Enemy),
      ((spawnStep env timer sc dt enemies).1 = 0 ∧
        (spawnStep env timer sc dt enemies).2 = enemies ++ [spawnEnemy env]) ↔
      timer + dt ≥ spawnInterval sc) ∧
    (∀ (env : Env) (timer : ℝ) (sc : ℤ) (dt : ℝ) (enemies : List Enemy),
      ¬timer + dt ≥ spawnInterval sc →
      (spawnStep env timer sc dt enemies).1 = timer + dt ∧
      (spawnStep env timer sc dt enemies).2 = enemies) := by
  refine ⟨fun sc _ => rfl, ?_, fun sc => le_max_left _ _, ?_, ?_, ?_, ?_⟩
  · intro a b hab
    unfold spawnInterval
    gcongr
  · norm_num [spawnInterval]
  · norm_num [spawnInterval]
  · intro env timer sc dt enemies
    unfold spawnStep
    constructor
    · intro h
      by_contra hc
      rw [if_neg hc] at h
      have := congrArg List.length h.2
      simp at this
    · intro h
      rw [if_pos h]
      exact ⟨rfl, rfl⟩
  · intro env timer sc dt enemies h
    unfold spawnStep
    rw [if_neg h]
    exact ⟨rfl, rfl⟩

/-- Witness for claim C3: interval values and a no-spawn step at score 0. -/
theorem spawnInterval_spec_witness :
    ((0 : ℤ) ≤ 0 ∧ spawnInterval 0 = max 0.35 (1 - min (((0 : ℤ) : ℝ) / 50) 0.7)) ∧
    ((0 : ℤ) ≤ 100 ∧ spawnInterval 100 ≤ spawnInterval 0) ∧
    (¬(0 : ℝ) + 0 ≥ spawnInterval 0 ∧ (spawnStep env0 0 0 0 []).1 = 0 + 0) := by
  have hneg : ¬(0 : ℝ) + 0 ≥ spawnInterval 0 := by
    norm_num [spawnInterval]
  exact ⟨⟨le_refl 0, spawnInterval_spec.1 0 (le_refl 0)⟩,
    ⟨by norm_num, spawnInterval_spec.2.1 0 100 (by norm_num)⟩,
    ⟨hneg, (spawnInterval_spec.2.2.2.2.2.2 env0 0 0 0 [] hneg).1⟩⟩

/-- Claim C4: a tick taken while the session is paused leaves the whole
simulation state untouched: player position, velocity and cooldown, score
and lives, the bullet, enemy and particle collections, the stars, the
spawn timer and the speed factor are all exactly as before. -/
theorem tick_paused_frozen (env : Env) (s : SimState) (dt : ℝ) (keys : Input)
    (hp : s.paused = true) :
    tick env s dt keys = s := by
  simp [tick, hp]

/-- Witness for claim C4 at a concrete paused state. -/
theorem tick_paused_frozen_witness :
    statePaused.paused = true ∧ tick env0 statePaused 0 inp0 = statePaused :=
  ⟨rfl, tick_paused_frozen env0 statePaused 0 inp0 rfl⟩

/-- Claim C5: for every nonnegative dt, every input snapshot and every
player state with the program's bounding box (48 x 36), the updated
position is clamped into the screen: `24 ≤ x ≤ 876` (which is
`width/2 ≤ x ≤ WIDTH - width/2`) and `18 ≤ y ≤ 582`. Positions are real
numbers in this model, hence always finite. -/
theorem player_update_in_bounds (p : Player) (dt : ℝ) (keys : Input)
    (hdt : 0 ≤ dt) (hw : p.rect.width = 48) (hh : p.rect.height = 36) :
    24 ≤ (p.update dt keys).pos.1 ∧ (p.update dt keys).pos.1 ≤ 876 ∧
    18 ≤ (p.update dt keys).pos.2 ∧ (p.update dt keys).pos.2 ≤ 582 := by
  have e1 : ((48 : ℤ) : ℝ) / 2 = 24 := by norm_num
  have e2 : (900 : ℝ) - ((48 : ℤ) : ℝ) / 2 = 876 := by norm_num
  have e3 : ((36 : ℤ) : ℝ) / 2 = 18 := by norm_num
  have e4 : (600 : ℝ) - ((36 : ℤ) : ℝ) / 2 = 582 := by norm_num
  simp only [Player.update, hw, hh, e1, e2, e3, e4]
  have h876 : (900 : ℝ) - 24 = 876 := by norm_num
  have h582 : (600 : ℝ) - 18 = 582 := by norm_num
  rw [h876, h582]
  exact ⟨le_clamp _ _ _, clamp_le _ _ _ (by norm_num),
    le_clamp _ _ _, clamp_le _ _ _ (by norm_num)⟩

/-- Witness for claim C5 at the spawn-point player with dt = 1. -/
theorem player_update_in_bounds_witness :
    (0 : ℝ) ≤ 1 ∧ player1.rect.width = 48 ∧ player1.rect.height = 36 ∧
    24 ≤ (player1.update 1 inp0).pos.1 :=
  ⟨by norm_num, rfl, rfl, (player_update_in_bounds player1 1 inp0 (by norm_num) rfl rfl).1⟩

/-- Claim C6, counterexample: the claim says a bullet is destroyed exactly
when its y is below -20. This concrete live bullet moves to center
y = -27 < -20 in one update and still survives, because the code tests
`rect.bottom < -20` (center + 7), not the position itself. -/
theorem bullet_kill_line_cex :
    cexBullet.pos.2 + (-700) * (1/100 : ℝ) = -27 ∧
    ((-27 : ℝ) < -20) ∧
    (cexBullet.update (1/100)).isSome = true := by
  refine ⟨by norm_num [cexBullet], by norm_num, ?_⟩
  simp only [Bullet.update, cexBullet]
  have harg : (-20 : ℝ) + (-700) * (1/100) = ((-27 : ℤ) : ℝ) := by norm_num
  rw [harg, pyInt_intCast]
  norm_num [PyRect.setCenter, PyRect.bottom]

/-- Claim C6 as amended: `Bullet.update(dt)` advances the position by the
fixed velocity (0, -700) times dt and destroys the bullet exactly when the
recomputed `rect.bottom` - the truncated center y plus 7 - is below -20;
in particular a bullet at y = -25 is removed by any update moving it at
least 3 pixels (700 dt >= 3, true at every capped frame). -/
theorem bullet_update_spec (b : Bullet) (dt : ℝ) (hv : b.vel = ((0 : ℝ), (-700 : ℝ)))
    (hh : b.rect.height = 14) :
    (∀ b2, b.update dt = some b2 →
      b2.pos.1 = b.pos.1 ∧ b2.pos.2 = b.pos.2 + (-700) * dt ∧
      b2.vel = ((0 : ℝ), (-700 : ℝ))) ∧
    (b.update dt = none ↔ pyInt (b.pos.2 + (-700) * dt) + 7 < -20) ∧
    (b.pos.2 = -25 → 3 / 700 ≤ dt → b.update dt = none) := by
  simp only [Bullet.update, hv]
  have hbot : ∀ y : ℤ, (b.rect.setCenter (pyInt (b.pos.1 + 0 * dt), y)).bottom = y + 7 := by
    intro y
    simp only [PyRect.setCenter, PyRect.bottom, hh]
    omega
  rw [hbot]
  split_ifs with hc
  · refine ⟨by simp, by simpa using hc, fun _ _ => rfl⟩
  · refine ⟨?_, by simpa using hc, ?_⟩
    · intro b2 h2
      injection h2 with h2
      subst h2
      refine ⟨by simp, rfl, rfl⟩
    · intro h25 hdt
      exfalso
      apply hc
      have hle : b.pos.2 + -700 * dt ≤ ((-28 : ℤ) : ℝ) := by
        rw [h25]
        push_cast
        linarith
      have hneg : b.pos.2 + -700 * dt < 0 := lt_of_le_of_lt hle (by norm_num)
      have := pyInt_le_int _ _ hneg hle
      omega

/-- Witness for the amended claim C6: the kill criterion at the sample
bullet, and the y = -25 scenario removed at dt = 1/100. -/
theorem bullet_update_spec_witness :
    cexBullet.vel = ((0 : ℝ), (-700 : ℝ)) ∧ cexBullet.rect.height = 14 ∧
    ((cexBullet.update 1 = none) ↔ pyInt (cexBullet.pos.2 + (-700) * 1) + 7 < -20) ∧
    bulletY25.pos.2 = -25 ∧ (3 : ℝ) / 700 ≤ 1 / 100 ∧ bulletY25.update (1/100) = none :=
  ⟨rfl, rfl, (bullet_update_spec cexBullet 1 rfl rfl).2.1, rfl, by norm_num,
    (bullet_update_spec bulletY25 (1/100) rfl rfl).2.2 rfl (by norm_num)⟩

/-- Claim C7, counterexample: the claim says an enemy whose position has
y > HEIGHT + 40 = 640 is removed by its next update regardless of
collisions. This live enemy at y = 641 survives its update, because the
code tests `rect.top > 640` (truncated center minus 15), not the position
itself. -/
theorem enemy_kill_line_cex :
    cexEnemy.pos.2 = 641 ∧ ((600 : ℝ) + 40 < 641) ∧
    (cexEnemy.update (1/60)).isSome = true := by
  refine ⟨by norm_num [cexEnemy], by norm_num, ?_⟩
  simp only [Enemy.update, cexEnemy]
  norm_num [PyRect.setCenter, pyInt]

/-- Claim C7 as amended: `Enemy.update(dt)` advances the oscillation phase
by 4 dt, perturbs x by sin(phase) times amplitude times dt, advances y by
speed times dt, and destroys the enemy exactly when the recomputed
`rect.top` - the truncated center y minus 15 - exceeds 640, i.e. when the
truncated new center y exceeds 655. -/
theorem enemy_update_spec (e : Enemy) (dt : ℝ) (hh : e.rect.height = 30) :
    (e.update dt = none ↔ 655 < pyInt (e.pos.2 + e.speed * dt)) ∧
    (∀ e2, e.update dt = some e2 →
      e2.phase = e.phase + dt * 4 ∧
      e2.pos.1 = e.pos.1 + Real.sin (e.phase + dt * 4) * e.oscAmp * dt ∧
      e2.pos.2 = e.pos.2 + e.speed * dt ∧ e2.speed = e.speed) := by
  simp only [Enemy.update]
  have htop : ∀ y : ℤ,
      (e.rect.setCenter (pyInt (e.pos.1 + Real.sin (e.phase + dt * 4) * e.oscAmp * dt), y)).top
        = y - 15 := by
    intro y
    simp only [PyRect.setCenter, hh]
    omega
  rw [htop]
  split_ifs with hc
  · refine ⟨⟨fun _ => by omega, fun _ => rfl⟩, ?_⟩
    intro e2 h2
    exact absurd h2 (by simp)
  · refine ⟨?_, ?_⟩
    · constructor
      · intro h
        exact absurd h (by simp)
      · intro h
        omega
    · intro e2 h2
      injection h2 with h2
      subst h2
      exact ⟨rfl, rfl, rfl, rfl⟩

/-- Witness for the amended claim C7 at the sample enemy. -/
theorem enemy_update_spec_witness :
    cexEnemy.rect.height = 30 ∧
    ((cexEnemy.update 1 = none) ↔ 655 < pyInt (cexEnemy.pos.2 + cexEnemy.speed * 1)) :=
  ⟨rfl, (enemy_update_spec cexEnemy 1 rfl).1⟩

/-- Claim C8: `Particle.update(dt)` adds dt to the age and destroys the
particle exactly when the new age reaches the lifetime; otherwise the
position advances by velocity times dt, the velocity shrinks by the 0.98
drag, and the written alpha is `int(255 (1 - age/lifetime))`. For a 0.5 s
lifetime the fade formula gives alpha 0 at age 0.5 (the moment the
particle is destroyed) and 127 at age 0.25 - the exact value 127.5, about
128 within rounding. -/
theorem particle_update_spec (p : Particle) (dt : ℝ) :
    (p.update dt = none ↔ p.lifetime ≤ p.age + dt) ∧
    (∀ p2, p.update dt = some p2 →
      p2.age = p.age + dt ∧
      p2.pos.1 = p.pos.1 + p.vel.1 * dt ∧ p2.pos.2 = p.pos.2 + p.vel.2 * dt ∧
      p2.vel.1 = p.vel.1 * 0.98 ∧ p2.vel.2 = p.vel.2 * 0.98 ∧
      p2.lifetime = p.lifetime ∧ p2.alpha = fadeAlpha (p.age + dt) p.lifetime) ∧
    fadeAlpha (1/2) (1/2) = 0 ∧
    fadeAlpha (1/4) (1/2) = 127 ∧
    (255 : ℝ) * (1 - (1/4 : ℝ) / (1/2)) = 127.5 ∧
    |(127 : ℤ) - 128| ≤ 1 := by
  refine ⟨?_, ?_, ?_, ?_, by norm_num, by norm_num⟩
  · simp only [Particle.update]
    split_ifs with hc
    · simpa using hc
    · simpa using hc
  · simp only [Particle.update]
    split_ifs with hc
    · intro p2 h2
      exact absurd h2 (by simp)
    · intro p2 h2
      injection h2 with h2
      subst h2
      exact ⟨rfl, rfl, rfl, rfl, rfl, rfl, rfl⟩
  · norm_num [fadeAlpha, pyInt]
  · norm_num [fadeAlpha, pyInt]

/-- Witness for claim C8: a concrete particle of lifetime 1 surviving an
update of dt = 0.5, with all the updated fields evaluated. -/
theorem particle_update_spec_witness :
    partW.update (1/2) = some partW2 ∧ partW2.age = partW.age + 1/2 := by
  have hs : partW.update (1/2) = some partW2 := by
    simp only [Particle.update, partW, partW2, fadeAlpha]
    norm_num [pyInt, Particle.mk.injEq, Prod.mk.injEq]
  exact ⟨hs, ((particle_update_spec partW (1/2)).2.1 partW2 hs).1⟩

/-- Claim C9 (implicit): the session invariant - lives in {1, 2, 3} and
the score a non-negative multiple of 10 - holds at the initial state and
is preserved by every tick, so lives = 0 is never observable at a tick
boundary: a decrement reaching 0 is reset to 3 within the same tick. -/
theorem session_invariant (stars : List Star) (env : Env) (s : SimState) (dt : ℝ)
    (keys : Input) (h : sessionInv s) :
    sessionInv (initState stars) ∧ sessionInv (tick env s dt keys) := by
  constructor
  · exact ⟨Or.inr (Or.inr rfl), le_refl 0, dvd_zero 10⟩
  · unfold tick
    split_ifs with hp
    · exact h
    · obtain ⟨h1, h2, h3⟩ := h
      have hl := preCollision_lives env s dt keys
      have hs := preCollision_score env s dt keys
      refine ⟨?_, ?_, ?_⟩
      · rcases resolveCollisions_lives_cases env (preCollision env s dt keys) with
          hA | ⟨hB, hB2⟩ | ⟨hC, _⟩
        · rw [hA, hl]
          exact h1
        · rw [hB, hl]
          rw [hl] at hB2
          omega
        · rw [hC]
          exact Or.inr (Or.inr rfl)
      · rcases resolveCollisions_score_cases env (preCollision env s dt keys) with hA | hB
        · rw [hA, hs]
          have : (0 : ℤ) ≤ 10 * ((hitsOf (preCollision env s dt keys)).length : ℤ) := by
            positivity
          omega
        · rw [hB]
      · rcases resolveCollisions_score_cases env (preCollision env s dt keys) with hA | hB
        · rw [hA, hs]
          exact dvd_add h3 (dvd_mul_right 10 _)
        · rw [hB]
          exact dvd_zero 10

/-- Witness for claim C9 at the initial state and the two-enemy state. -/
theorem session_invariant_witness :
    sessionInv (initState []) ∧ sessionInv (tick env0 stateTwoHits 0 inp0) :=
  session_invariant [] env0 stateTwoHits 0 inp0
    ⟨Or.inr (Or.inr rfl), le_refl 0, dvd_zero 10⟩

/-- Claim C10 (implicit): in any unpaused tick the player loses at most
one life - the result is the old lives, the old lives minus one, or the
reset value 3 - no matter how many enemies overlap the player, and every
enemy overlapping the (post-update) player rect is destroyed by the pass. -/
theorem tick_single_life_loss (env : Env) (s : SimState) (dt : ℝ) (keys : Input)
    (hp : s.paused = false) :
    s.player.lives - 1 ≤ (tick env s dt keys).player.lives ∧
    ((tick env s dt keys).player.lives = s.player.lives ∨
      (tick env s dt keys).player.lives = s.player.lives - 1 ∨
      (tick env s dt keys).player.lives = 3) ∧
    (∀ e ∈ (tick env s dt keys).enemies,
      colliderect (tick env s dt keys).player.rect e.rect = false) := by
  have ht : tick env s dt keys = resolveCollisions env (preCollision env s dt keys) := by
    rw [tick, if_neg]
    rw [hp]
    simp
  rw [ht]
  have hl := preCollision_lives env s dt keys
  refine ⟨?_, ?_, ?_⟩
  · rcases resolveCollisions_lives_cases env (preCollision env s dt keys) with
      hA | ⟨hB, _⟩ | ⟨hC, hC2⟩
    · rw [hA, hl]
      omega
    · rw [hB, hl]
    · rw [hl] at hC2
      rw [hC]
      omega
  · rcases resolveCollisions_lives_cases env (preCollision env s dt keys) with
      hA | ⟨hB, _⟩ | ⟨hC, _⟩
    · rw [hA, hl]
      exact Or.inl rfl
    · rw [hB, hl]
      exact Or.inr (Or.inl rfl)
    · rw [hC]
      exact Or.inr (Or.inr rfl)
  · rw [resolveCollisions_player_rect]
    rcases resolveCollisions_enemies_cases env (preCollision env s dt keys) with hA | hB
    · rw [hA]
      intro e he
      exact absurd he (List.not_mem_nil e)
    · rw [hB]
      intro e he
      exact mem_enemySurvivors _ e he

/-- Witness for claim C10 at the one-life state. -/
theorem tick_single_life_loss_witness :
    state1.paused = false ∧
    state1.player.lives - 1 ≤ (tick env0 state1 0 inp0).player.lives :=
  ⟨rfl, (tick_single_life_loss env0 state1 0 inp0 rfl).1⟩

end SpaceShooter
